import Mathlib

/-
Verification of the user-account slice of the recipe API: the two serializer
classes of src/app/user/serializers.py (UserSerializer and
AuthTokenSerializer), together with models, faithful to the specification, of
the external collaborators and views that the serializers are glued to
(user storage with password hashing, the create-user, obtain-token and
profile endpoints).
-/

/-- A stored user record of the external user-storage collaborator:
email (unique identifier), password column (expected to hold a hash),
display name. -/
structure StoredUser where
  email : String
  password : String
  name : String
deriving DecidableEq, Repr

/-- Modelled from the spec: the external collaborator hashes passwords
(never stores them verbatim); the hashing operation itself is outside the
repository. It is modelled as an injective tagging function, so that a
hash is never equal to the plaintext it was derived from. -/
def hashPassword (plaintext : String) : String :=
  "pbkdf2_sha256$" ++ plaintext

/-- Modelled from the spec: password verification of the external
collaborator — the stored password column verifies against a submitted
plaintext exactly when it equals the hash of that plaintext. -/
def StoredUser.check_password (u : StoredUser) (plaintext : String) : Bool :=
  u.password == hashPassword plaintext

/-- Modelled from the spec: the external user-storage collaborator
operation that creates a user with a hashed password
(get_user_model().objects.create_user). -/
def create_user (email password name : String) : StoredUser :=
  { email := email, password := hashPassword password, name := name }

/-- The ambient request context is opaque to the serializer; it is only
handed through to the authenticate collaborator. -/
structure Request where
  id : Nat
deriving DecidableEq, Repr

/-- A value held in a serializer attrs dictionary: the two declared fields
are character strings, and validate later stores a resolved user. -/
inductive Value where
  | str : String → Value
  | user : StoredUser → Value
deriving DecidableEq, Repr

/-- An attrs dictionary, as an association list keyed by field name. -/
def Attrs : Type := List (String × Value)

instance : DecidableEq Attrs := inferInstanceAs (DecidableEq (List (String × Value)))

/-- Dictionary lookup (Python dict.get): the value under a key, if any. -/
def dictGet (d : Attrs) (k : String) : Option Value :=
  match d with
  | [] => none
  | (k2, v) :: rest => if k2 = k then some v else dictGet rest k

/-- Dictionary assignment (Python d[k] = v): replace in place, or append. -/
def dictSet (d : Attrs) (k : String) (v : Value) : Attrs :=
  match d with
  | [] => [(k, v)]
  | (k2, v2) :: rest => if k2 = k then (k, v) :: rest else (k2, v2) :: dictSet rest k v

/-- The keys of an attrs dictionary, in order. -/
def dictKeys (d : Attrs) : List String :=
  d.map Prod.fst

/-- A rest_framework validation error, carrying a detail message and a code. -/
structure ValidationError where
  detail : String
  code : String
deriving DecidableEq, Repr

/-- A character field of the serialization layer; by default it trims
surrounding whitespace from its input. -/
structure CharField where
  trim_whitespace : Bool := true
deriving DecidableEq, Repr

/-- Processing of one raw input string by a character field: trimmed when
the field trims whitespace, verbatim otherwise. -/
def CharField.to_internal_value (f : CharField) (raw : String) : String :=
  if f.trim_whitespace then raw.trim else raw

/-- AuthTokenSerializer.email: a plain character field. -/
def AuthTokenSerializer.email_field : CharField :=
  { trim_whitespace := true }

/-- AuthTokenSerializer.password: a character field declared with
trim_whitespace=False. -/
def AuthTokenSerializer.password_field : CharField :=
  { trim_whitespace := false }

/-- The validated attrs the serializer builds from the raw email and
password inputs: each declared field processes its own raw value. -/
def AuthTokenSerializer.to_internal_value (rawEmail rawPassword : String) : Attrs :=
  [("email", Value.str (AuthTokenSerializer.email_field.to_internal_value rawEmail)),
   ("password", Value.str (AuthTokenSerializer.password_field.to_internal_value rawPassword))]

/-- The type of the external authenticate collaborator: given the ambient
request, a username and a password, it resolves an identity or none. -/
def Authenticate : Type :=
  Option Request → Option Value → Option Value → Option StoredUser

/-- AuthTokenSerializer.validate: reads email and password out of attrs,
delegates to the authenticate collaborator with the ambient request
context, raises a validation error with a fixed message and code
authentication when no identity resolves, and otherwise attaches the
resolved identity under the user key of attrs and returns it. -/
def AuthTokenSerializer.validate (authenticate : Authenticate)
    (contextRequest : Option Request) (attrs : Attrs) :
    Except ValidationError Attrs :=
  let email := dictGet attrs "email"
  let password := dictGet attrs "password"
  match authenticate contextRequest email password with
  | none =>
      Except.error { detail := "Unable to authenticate, check your credentials",
                     code := "authentication" }
  | some user =>
      Except.ok (dictSet attrs "user" (Value.user user))

/-- An HTTP-style response: a status code and a flat body of named strings. -/
structure Response where
  status : Nat
  body : List (String × String)
deriving DecidableEq, Repr

/-- The keys present in a response body. -/
def Response.bodyKeys (r : Response) : List String :=
  r.body.map Prod.fst

/-- Modelled from the spec: the token value issued by the external token
collaborator is an opaque per-user credential. -/
def issueToken (u : StoredUser) : String :=
  "token:" ++ u.email

/-- Modelled from the spec: the obtain-token endpoint (its view and routing
are outside the repository sources). POST runs the AuthTokenSerializer over
the raw payload; a validation error surfaces as a 400 response with a
non-field error and no token; success returns 200 with the token for the
resolved user. -/
def tokenEndpoint (authenticate : Authenticate) (contextRequest : Option Request)
    (rawEmail rawPassword : String) : Response :=
  match AuthTokenSerializer.validate authenticate contextRequest
      (AuthTokenSerializer.to_internal_value rawEmail rawPassword) with
  | Except.error e => { status := 400, body := [("non_field_errors", e.detail)] }
  | Except.ok attrs =>
      match dictGet attrs "user" with
      | some (Value.user u) => { status := 200, body := [("token", issueToken u)] }
      | _ => { status := 200, body := [] }

/-- UserSerializer Meta fields: the exposed transport fields, in order. -/
def UserSerializer.fields : List String :=
  ["email", "password", "name"]

/-- UserSerializer Meta extra_kwargs: the password field is write-only. -/
def UserSerializer.password_write_only : Bool :=
  true

/-- UserSerializer Meta extra_kwargs: the minimum password length. -/
def UserSerializer.password_min_length : Nat :=
  6

/-- Whether a field of UserSerializer is write-only, per its Meta
extra_kwargs: only the password field is. -/
def UserSerializer.write_only (f : String) : Bool :=
  f == "password" && UserSerializer.password_write_only

/-- The value a user record holds under a given transport field name. -/
def StoredUser.fieldValue (u : StoredUser) (f : String) : String :=
  if f = "email" then u.email
  else if f = "password" then u.password
  else u.name

/-- The transport representation of a user under UserSerializer: the Meta
fields in order, with write-only fields excluded. -/
def UserSerializer.to_representation (u : StoredUser) : List (String × String) :=
  (UserSerializer.fields.filter (fun f => ! UserSerializer.write_only f)).map
    (fun f => (f, u.fieldValue f))

/-- A validated create-user payload: the three exposed fields. -/
structure ValidatedUserData where
  email : String
  password : String
  name : String
deriving DecidableEq, Repr

/-- UserSerializer.create: invoke the external create-user-with-hashed-
password routine on the validated data and return the resulting entity. -/
def UserSerializer.create (validated_data : ValidatedUserData) : StoredUser :=
  create_user validated_data.email validated_data.password validated_data.name

/-- Modelled from the spec: field validation of the serialization layer as
configured by Meta — a password below the configured minimum length fails
with a field validation error before anything reaches external storage. -/
def UserSerializer.run_validation (email password name : String) :
    Except ValidationError ValidatedUserData :=
  if password.length < UserSerializer.password_min_length then
    Except.error { detail := "Ensure this field has at least 6 characters.",
                   code := "min_length" }
  else
    Except.ok { email := email, password := password, name := name }

/-- Whether some stored user already has the given email. -/
def emailExists (db : List StoredUser) (email : String) : Bool :=
  db.any (fun u => u.email == email)

/-- The outcome of a create-user request: the response, the user store
afterwards, and how many times the external storage creation routine ran. -/
structure CreateOutcome where
  response : Response
  db : List StoredUser
  storageCalls : Nat
deriving DecidableEq, Repr

/-- Modelled from the spec: the create-user endpoint (its view and routing
are outside the repository sources). It rejects with 400 a payload whose
email is already taken (email uniquely identifies a user, enforced
externally) or whose password fails validation, touching storage in
neither case; otherwise it invokes UserSerializer.create once, persists
the resulting entity and answers 201 with its transport representation. -/
def createUserEndpoint (db : List StoredUser) (email password name : String) :
    CreateOutcome :=
  if emailExists db email then
    { response := { status := 400,
                    body := [("email", "user with this email already exists.")] },
      db := db, storageCalls := 0 }
  else
    match UserSerializer.run_validation email password name with
    | Except.error e =>
        { response := { status := 400, body := [("password", e.detail)] },
          db := db, storageCalls := 0 }
    | Except.ok v =>
        let u := UserSerializer.create v
        { response := { status := 201, body := UserSerializer.to_representation u },
          db := db ++ [u], storageCalls := 1 }

/-- Modelled from the spec: the generic framework update behavior the
repository delegates profile updates to — partial field assignment: each
updated field is assigned verbatim onto the instance, which is then saved.
The repository performs no hashing itself. -/
def model_update (u : StoredUser) (data : List (String × String)) : StoredUser :=
  data.foldl
    (fun acc kv =>
      if kv.1 = "email" then { acc with email := kv.2 }
      else if kv.1 = "password" then { acc with password := kv.2 }
      else if kv.1 = "name" then { acc with name := kv.2 }
      else acc)
    u

/-- Modelled from the spec: GET on the profile (me) endpoint (its view and
routing are outside the repository sources) — 401 when no authenticated
caller, otherwise 200 with the transport representation of the caller. -/
def meGetEndpoint (caller : Option StoredUser) : Response :=
  match caller with
  | none => { status := 401, body := [] }
  | some u => { status := 200, body := UserSerializer.to_representation u }

/-- Modelled from the spec: PATCH on the profile (me) endpoint — 401 when
no authenticated caller, otherwise the generic partial update is applied
to the caller and 200 returns the updated transport representation. -/
def mePatchEndpoint (caller : Option StoredUser) (data : List (String × String)) :
    Response × Option StoredUser :=
  match caller with
  | none => ({ status := 401, body := [] }, none)
  | some u =>
      let u2 := model_update u data
      ({ status := 200, body := UserSerializer.to_representation u2 }, some u2)

theorem hashPassword_ne (p : String) : hashPassword p ≠ p := by
  intro h
  have h2 := congrArg String.length h
  rw [hashPassword, String.length_append] at h2
  have h3 : String.length "pbkdf2_sha256$" = 14 := rfl
  omega

theorem dictGet_dictSet_self (d : Attrs) (k : String) (v : Value) :
    dictGet (dictSet d k v) k = some v := by
  induction d with
  | nil => simp [dictSet, dictGet]
  | cons hd tl ih =>
    obtain ⟨k2, v2⟩ := hd
    by_cases h : k2 = k
    · simp [dictSet, dictGet, h]
    · simp [dictSet, dictGet, h, ih]

theorem dictGet_dictSet_ne (d : Attrs) (k k2 : String) (v : Value) (h : k2 ≠ k) :
    dictGet (dictSet d k v) k2 = dictGet d k2 := by
  induction d with
  | nil => simp [dictSet, dictGet, Ne.symm h]
  | cons hd tl ih =>
    obtain ⟨k3, v3⟩ := hd
    by_cases h3 : k3 = k
    · subst h3
      simp [dictSet, dictGet, Ne.symm h]
    · simp only [dictSet, if_neg h3, dictGet]
      by_cases h4 : k3 = k2
      · simp [h4]
      · simp [h4, ih]

theorem dictKeys_dictSet_of_none (d : Attrs) (k : String) (v : Value)
    (h : dictGet d k = none) :
    dictKeys (dictSet d k v) = dictKeys d ++ [k] := by
  induction d with
  | nil => simp [dictSet, dictKeys]
  | cons hd tl ih =>
    obtain ⟨k2, v2⟩ := hd
    by_cases h2 : k2 = k
    · simp [dictGet, h2] at h
    · simp only [dictGet, if_neg h2] at h
      have h5 := ih h
      simp only [dictKeys] at h5
      simp [dictSet, if_neg h2, dictKeys, h5]

theorem to_representation_eq (u : StoredUser) :
    UserSerializer.to_representation u = [("email", u.email), ("name", u.name)] := by
  rfl

/-- Claim C1: for every email and password input, when the authenticate
collaborator resolves no identity, AuthTokenSerializer.validate raises
exactly the validation error with the fixed message and the code
authentication, and the token request answers 400 with no token key in
the body; when an identity does resolve, validate raises nothing. -/
theorem C1_invalid_credentials (authenticate : Authenticate)
    (ctx : Option Request) (rawEmail rawPassword : String) :
    (authenticate ctx
        (dictGet (AuthTokenSerializer.to_internal_value rawEmail rawPassword) "email")
        (dictGet (AuthTokenSerializer.to_internal_value rawEmail rawPassword) "password")
        = none →
      AuthTokenSerializer.validate authenticate ctx
          (AuthTokenSerializer.to_internal_value rawEmail rawPassword)
        = Except.error { detail := "Unable to authenticate, check your credentials",
                         code := "authentication" }
      ∧ (tokenEndpoint authenticate ctx rawEmail rawPassword).status = 400
      ∧ "token" ∉ (tokenEndpoint authenticate ctx rawEmail rawPassword).bodyKeys)
    ∧ (∀ u, authenticate ctx
        (dictGet (AuthTokenSerializer.to_internal_value rawEmail rawPassword) "email")
        (dictGet (AuthTokenSerializer.to_internal_value rawEmail rawPassword) "password")
        = some u →
      ∃ d, AuthTokenSerializer.validate authenticate ctx
          (AuthTokenSerializer.to_internal_value rawEmail rawPassword) = Except.ok d) := by
  constructor
  · intro h
    refine ⟨?_, ?_, ?_⟩ <;>
      simp [AuthTokenSerializer.validate, tokenEndpoint, h, Response.bodyKeys]
  · intro u h
    exact ⟨dictSet (AuthTokenSerializer.to_internal_value rawEmail rawPassword)
        "user" (Value.user u), by simp [AuthTokenSerializer.validate, h]⟩

theorem C1_invalid_credentials_witness :
    AuthTokenSerializer.validate (fun _ _ _ => none) none
        (AuthTokenSerializer.to_internal_value "test@gmail.com" "wrongpw")
      = Except.error { detail := "Unable to authenticate, check your credentials",
                       code := "authentication" }
    ∧ (tokenEndpoint (fun _ _ _ => none) none "test@gmail.com" "wrongpw").status = 400
    ∧ "token" ∉ (tokenEndpoint (fun _ _ _ => none) none "test@gmail.com" "wrongpw").bodyKeys :=
  (C1_invalid_credentials (fun _ _ _ => none) none "test@gmail.com" "wrongpw").1 rfl

/-- Claim C2: whenever the authenticate collaborator resolves an identity,
AuthTokenSerializer.validate consults the collaborator at exactly the
ambient request context, the email entry of attrs as username and the
password entry of attrs (its result depends on the collaborator only
through that one application), attaches the resolved identity under the
user key of the validated data, and returns it. -/
theorem C2_validate_delegates (authenticate : Authenticate)
    (ctx : Option Request) (attrs : Attrs) :
    (∀ authenticate2 : Authenticate,
        authenticate2 ctx (dictGet attrs "email") (dictGet attrs "password")
          = authenticate ctx (dictGet attrs "email") (dictGet attrs "password") →
        AuthTokenSerializer.validate authenticate2 ctx attrs
          = AuthTokenSerializer.validate authenticate ctx attrs)
    ∧ (∀ u, authenticate ctx (dictGet attrs "email") (dictGet attrs "password") = some u →
        AuthTokenSerializer.validate authenticate ctx attrs
          = Except.ok (dictSet attrs "user" (Value.user u))) := by
  constructor
  · intro authenticate2 h
    simp [AuthTokenSerializer.validate, h]
  · intro u h
    simp [AuthTokenSerializer.validate, h]

theorem C2_validate_delegates_witness :
    AuthTokenSerializer.validate
        (fun _ _ _ => some (create_user "test@gmail.com" "testpw1" "test_name")) none
        [("email", Value.str "test@gmail.com"), ("password", Value.str "testpw1")]
      = Except.ok (dictSet
          [("email", Value.str "test@gmail.com"), ("password", Value.str "testpw1")]
          "user" (Value.user (create_user "test@gmail.com" "testpw1" "test_name"))) :=
  (C2_validate_delegates _ none _).2 _ rfl

/-- Claim C3: a create-user request whose password has fewer than 6
characters fails validation with a 400 response, the external storage
creation routine is never invoked, the user store is unchanged, and no
record exists afterwards for that email if none existed before. -/
theorem C3_short_password_rejected (db : List StoredUser)
    (email password name : String) (h : password.length < 6) :
    (createUserEndpoint db email password name).response.status = 400
    ∧ (createUserEndpoint db email password name).storageCalls = 0
    ∧ (createUserEndpoint db email password name).db = db
    ∧ (emailExists db email = false →
        emailExists (createUserEndpoint db email password name).db email = false) := by
  cases he : emailExists db email with
  | true => simp [createUserEndpoint, he]
  | false =>
    simp [createUserEndpoint, he, UserSerializer.run_validation,
      UserSerializer.password_min_length, h]

theorem C3_short_password_rejected_witness :
    ("short".length < 6)
    ∧ (createUserEndpoint [] "test1@gmail.com" "short" "test_name").response.status = 400
    ∧ (createUserEndpoint [] "test1@gmail.com" "short" "test_name").storageCalls = 0
    ∧ (createUserEndpoint [] "test1@gmail.com" "short" "test_name").db = [] :=
  ⟨by decide,
   (C3_short_password_rejected [] "test1@gmail.com" "short" "test_name" (by decide)).1,
   (C3_short_password_rejected [] "test1@gmail.com" "short" "test_name" (by decide)).2.1,
   (C3_short_password_rejected [] "test1@gmail.com" "short" "test_name" (by decide)).2.2.1⟩

/-- Claim C4: a validated create-user payload invokes the external
create-user-with-hashed-password routine exactly once, UserSerializer
create returns the entity that routine builds, the stored password is the
hash of the submitted plaintext (it verifies against the plaintext and is
not stored verbatim), the response is 201, and its body carries exactly
the email and name keys, never a password key. -/
theorem C4_create_hashed_user (db : List StoredUser) (email password name : String)
    (hlen : 6 ≤ password.length) (hnew : emailExists db email = false) :
    (createUserEndpoint db email password name).response.status = 201
    ∧ (createUserEndpoint db email password name).storageCalls = 1
    ∧ (createUserEndpoint db email password name).db = db ++ [create_user email password name]
    ∧ UserSerializer.create { email := email, password := password, name := name }
        = create_user email password name
    ∧ (create_user email password name).check_password password = true
    ∧ (create_user email password name).password ≠ password
    ∧ (createUserEndpoint db email password name).response.bodyKeys = ["email", "name"]
    ∧ "password" ∉ (createUserEndpoint db email password name).response.bodyKeys := by
  have hv : ¬ password.length < UserSerializer.password_min_length := by
    simp only [UserSerializer.password_min_length]
    omega
  refine ⟨?_, ?_, ?_, rfl, ?_, hashPassword_ne password, ?_, ?_⟩ <;>
    simp [createUserEndpoint, hnew, UserSerializer.run_validation, hv,
      UserSerializer.create, create_user, StoredUser.check_password,
      Response.bodyKeys, to_representation_eq]

theorem C4_create_hashed_user_witness :
    (6 ≤ "testpw1".length)
    ∧ emailExists [] "test@gmail.com" = false
    ∧ (createUserEndpoint [] "test@gmail.com" "testpw1" "test_name").response.status = 201
    ∧ (create_user "test@gmail.com" "testpw1" "test_name").check_password "testpw1" = true :=
  ⟨by decide, rfl,
   (C4_create_hashed_user [] "test@gmail.com" "testpw1" "test_name" (by decide) rfl).1,
   (C4_create_hashed_user [] "test@gmail.com" "testpw1" "test_name"
      (by decide) rfl).2.2.2.2.1⟩

/-- Claim C5: the claim requires a patched password to be re-hashed so
that it verifies against the submitted plaintext afterwards, and the
repository test test_update_user_profile asserts exactly that; but the
serializer defines no update override and the generic framework update it
delegates to performs partial field assignment without hashing, so the
patched password is stored verbatim and does not verify. At the concrete
failing input below: the name is persisted and the response is 200, yet
check_password on the new plaintext returns false. -/
theorem C5_update_stores_plaintext_password :
    (mePatchEndpoint (some (create_user "test@gmail.com" "testpw1" "Testname"))
        [("name", "new name"), ("password", "newpassword1")]).1.status = 200
    ∧ (mePatchEndpoint (some (create_user "test@gmail.com" "testpw1" "Testname"))
        [("name", "new name"), ("password", "newpassword1")]).2
        = some { email := "test@gmail.com", password := "newpassword1", name := "new name" }
    ∧ StoredUser.check_password
        { email := "test@gmail.com", password := "newpassword1", name := "new name" }
        "newpassword1" = false := by
  refine ⟨rfl, rfl, ?_⟩
  decide

/-- Claim C6: the password field is write-only in transport — every user
entity serialized by UserSerializer yields exactly the email and name
fields and never the password field, and the profile retrieval, profile
update and successful create responses all carry that representation. -/
theorem C6_password_never_serialized (u : StoredUser) (data : List (String × String)) :
    UserSerializer.to_representation u = [("email", u.email), ("name", u.name)]
    ∧ "password" ∉ (UserSerializer.to_representation u).map Prod.fst
    ∧ (meGetEndpoint (some u)).bodyKeys = ["email", "name"]
    ∧ (mePatchEndpoint (some u) data).1.bodyKeys = ["email", "name"]
    ∧ (∀ db email password name, (createUserEndpoint db email password name).response.status = 201 →
        (createUserEndpoint db email password name).response.bodyKeys = ["email", "name"]) := by
  refine ⟨to_representation_eq u, ?_, ?_, ?_, ?_⟩
  · simp [to_representation_eq]
  · simp [meGetEndpoint, Response.bodyKeys, to_representation_eq]
  · simp [mePatchEndpoint, Response.bodyKeys, to_representation_eq]
  · intro db email password name h
    by_cases he : emailExists db email
    · simp [createUserEndpoint, he] at h
    · cases hv : UserSerializer.run_validation email password name with
      | error e => simp [createUserEndpoint, he, hv] at h
      | ok v => simp [createUserEndpoint, he, hv, Response.bodyKeys, to_representation_eq]

theorem C6_password_never_serialized_witness :
    (createUserEndpoint [] "test@gmail.com" "testpw1" "test_name").response.status = 201
    ∧ (createUserEndpoint [] "test@gmail.com" "testpw1" "test_name").response.bodyKeys
        = ["email", "name"] :=
  ⟨rfl, (C6_password_never_serialized
      (create_user "test@gmail.com" "testpw1" "test_name") []).2.2.2.2
      [] "test@gmail.com" "testpw1" "test_name" rfl⟩

/-- Claim C7: a create-user request whose email is already taken answers
400 and leaves the user store unchanged, so no duplicate record appears;
the storage creation routine is not invoked. -/
theorem C7_duplicate_email_rejected (db : List StoredUser)
    (email password name : String) (h : emailExists db email = true) :
    (createUserEndpoint db email password name).response.status = 400
    ∧ (createUserEndpoint db email password name).db = db
    ∧ (createUserEndpoint db email password name).storageCalls = 0 := by
  simp [createUserEndpoint, h]

theorem C7_duplicate_email_rejected_witness :
    emailExists [create_user "test@gmail.com" "testpw1" "test_name"] "test@gmail.com" = true
    ∧ (createUserEndpoint [create_user "test@gmail.com" "testpw1" "test_name"]
        "test@gmail.com" "testpw1" "test_name").response.status = 400
    ∧ (createUserEndpoint [create_user "test@gmail.com" "testpw1" "test_name"]
        "test@gmail.com" "testpw1" "test_name").db
        = [create_user "test@gmail.com" "testpw1" "test_name"] :=
  ⟨rfl,
   (C7_duplicate_email_rejected [create_user "test@gmail.com" "testpw1" "test_name"]
      "test@gmail.com" "testpw1" "test_name" rfl).1,
   (C7_duplicate_email_rejected [create_user "test@gmail.com" "testpw1" "test_name"]
      "test@gmail.com" "testpw1" "test_name" rfl).2.1⟩

/-- Claim C8: a profile (me) request from an unauthenticated caller
answers 401; an authenticated GET answers 200 with a body that is, as a
mapping, exactly the name and email of the stored user making the
request. -/
theorem C8_me_endpoint_auth :
    (meGetEndpoint none).status = 401
    ∧ ∀ u : StoredUser,
        (meGetEndpoint (some u)).status = 200
        ∧ (meGetEndpoint (some u)).body = [("email", u.email), ("name", u.name)]
        ∧ (meGetEndpoint (some u)).body.Perm [("name", u.name), ("email", u.email)] := by
  refine ⟨rfl, fun u => ⟨rfl, ?_, ?_⟩⟩
  · simp [meGetEndpoint, to_representation_eq]
  · simp only [meGetEndpoint, to_representation_eq]
    exact List.Perm.swap _ _ _

/-- Claim C9: whenever AuthTokenSerializer.validate succeeds on attrs that
do not already carry a user entry (as the framework guarantees, the
declared fields being only email and password), the returned dictionary is
the input with exactly the user key appended: every other key, email and
password included, maps to its original value, and no key is removed. -/
theorem C9_validate_frame (authenticate : Authenticate) (ctx : Option Request)
    (attrs result : Attrs)
    (hok : AuthTokenSerializer.validate authenticate ctx attrs = Except.ok result)
    (hnew : dictGet attrs "user" = none) :
    dictKeys result = dictKeys attrs ++ ["user"]
    ∧ (∀ k, k ≠ "user" → dictGet result k = dictGet attrs k)
    ∧ (∃ u, authenticate ctx (dictGet attrs "email") (dictGet attrs "password") = some u
        ∧ dictGet result "user" = some (Value.user u)) := by
  unfold AuthTokenSerializer.validate at hok
  cases hauth : authenticate ctx (dictGet attrs "email") (dictGet attrs "password") with
  | none => simp [hauth] at hok
  | some u =>
    simp only [hauth, Except.ok.injEq] at hok
    subst hok
    refine ⟨dictKeys_dictSet_of_none attrs "user" (Value.user u) hnew, ?_, ?_⟩
    · intro k hk
      exact dictGet_dictSet_ne attrs "user" k (Value.user u) hk
    · exact ⟨u, rfl, dictGet_dictSet_self attrs "user" (Value.user u)⟩

theorem C9_validate_frame_witness :
    dictKeys (dictSet [("email", Value.str "test@gmail.com"),
        ("password", Value.str "testpw1")] "user"
        (Value.user (create_user "test@gmail.com" "testpw1" "test_name")))
      = dictKeys [("email", Value.str "test@gmail.com"),
          ("password", Value.str "testpw1")] ++ ["user"] :=
  (C9_validate_frame
    (fun _ _ _ => some (create_user "test@gmail.com" "testpw1" "test_name")) none
    [("email", Value.str "test@gmail.com"), ("password", Value.str "testpw1")]
    (dictSet [("email", Value.str "test@gmail.com"), ("password", Value.str "testpw1")]
      "user" (Value.user (create_user "test@gmail.com" "testpw1" "test_name")))
    rfl rfl).1

/-- Claim C10: the password field of AuthTokenSerializer is declared with
trim_whitespace false, so the raw password reaches the attrs the
authenticate collaborator is consulted on verbatim, surrounding whitespace
included, and two passwords that differ only in surrounding whitespace are
distinct credentials. -/
theorem C10_password_not_trimmed (rawEmail p1 p2 : String) :
    AuthTokenSerializer.password_field.trim_whitespace = false
    ∧ AuthTokenSerializer.password_field.to_internal_value p1 = p1
    ∧ dictGet (AuthTokenSerializer.to_internal_value rawEmail p1) "password"
        = some (Value.str p1)
    ∧ (p1 ≠ p2 →
        dictGet (AuthTokenSerializer.to_internal_value rawEmail p1) "password"
          ≠ dictGet (AuthTokenSerializer.to_internal_value rawEmail p2) "password") := by
  refine ⟨rfl, rfl, ?_, ?_⟩
  · simp [AuthTokenSerializer.to_internal_value, dictGet,
      AuthTokenSerializer.password_field, CharField.to_internal_value]
  · intro hne
    simp [AuthTokenSerializer.to_internal_value, dictGet,
      AuthTokenSerializer.password_field, CharField.to_internal_value, hne]

theorem C10_password_not_trimmed_witness :
    (" testpw1" ≠ "testpw1")
    ∧ dictGet (AuthTokenSerializer.to_internal_value "test@gmail.com" " testpw1") "password"
        ≠ dictGet (AuthTokenSerializer.to_internal_value "test@gmail.com" "testpw1") "password" :=
  ⟨by decide,
   (C10_password_not_trimmed "test@gmail.com" " testpw1" "testpw1").2.2.2 (by decide)⟩
